import Mathlib

/-!
Shallow embedding of `src/tools/stable_diffusion.py` (class `Tools`,
version 1.1.0): the `Valves` configuration record, the two operations
`generate_image` and `generate_image_advanced`, the JSON payload they
construct, the single HTTP POST they issue, and the mapping from every
outcome of the remote call to the returned string.

Modelling conventions:
* Python `int` is `Int`; Python floor division `//` is `Int.fdiv`.
* Python `float` parameters (`cfg_scale`) are `ℚ`: the source only
  compares and clamps them with `max`/`min` at exactly representable
  values, so the ordered-field behaviour is what matters.
* A parameter with a Python default value is an `Option` argument
  resolved with `Option.getD`: `none` is an omitted argument.
* The remote call is modelled by a `RemoteOutcome` argument: the
  constructors cover a 2xx response whose body parsed as JSON
  (`success`), a connection failure (`connectionError`), a timeout
  (`timeout`), every other `requests.exceptions.RequestException` —
  including `raise_for_status` on a non-2xx status and a body that is
  not JSON (`requestError`), and any other exception raised inside the
  `try` block (`otherError`).
* The response JSON is a record: `images` is `none` when the key is
  absent, `some l` when present with list `l`; `infoSeed` models the
  optional `info.seed` field (which the source never reads).
-/

/-- One step of substring search: is `p` a prefix of `s` (char lists)? -/
def strPrefixAt : List Char → List Char → Bool
  | [], _ => true
  | _ :: _, [] => false
  | a :: as, b :: bs => a == b && strPrefixAt as bs

/-- Does char list `s` contain `p` as a contiguous sublist? -/
def containsAt (p : List Char) : List Char → Bool
  | [] => strPrefixAt p []
  | b :: bs => strPrefixAt p (b :: bs) || containsAt p bs

/-- Does string `s` contain `pat` as a substring? -/
def strContains (s pat : String) : Bool :=
  containsAt pat.data s.data

/-- The `Valves` configuration record of class `Tools`. -/
structure Valves where
  STABLE_DIFFUSION_URL : String
  DEFAULT_STEPS : Int
  DEFAULT_CFG_SCALE : ℚ
  DEFAULT_WIDTH : Int
  DEFAULT_HEIGHT : Int
  DEFAULT_SAMPLER : String
deriving DecidableEq

/-- Default field values of `Tools.Valves`. -/
def defaultValves : Valves :=
  { STABLE_DIFFUSION_URL := "http://stable-diffusion:17860"
    DEFAULT_STEPS := 20
    DEFAULT_CFG_SCALE := 7
    DEFAULT_WIDTH := 512
    DEFAULT_HEIGHT := 512
    DEFAULT_SAMPLER := "Euler a" }

/-- A JSON scalar appearing as a value in the request payload. -/
inductive JValue where
  | str : String → JValue
  | int : Int → JValue
  | num : ℚ → JValue
deriving DecidableEq

/-- The JSON request body both operations build (the `payload` dict). -/
structure Payload where
  prompt : String
  negative_prompt : String
  steps : Int
  cfg_scale : ℚ
  width : Int
  height : Int
  seed : Int
  sampler_name : String
  batch_size : Int
  n_iter : Int
deriving DecidableEq

/-- The payload as the ordered field list of the Python dict literal. -/
def Payload.toJsonFields (p : Payload) : List (String × JValue) :=
  [("prompt", .str p.prompt),
   ("negative_prompt", .str p.negative_prompt),
   ("steps", .int p.steps),
   ("cfg_scale", .num p.cfg_scale),
   ("width", .int p.width),
   ("height", .int p.height),
   ("seed", .int p.seed),
   ("sampler_name", .str p.sampler_name),
   ("batch_size", .int p.batch_size),
   ("n_iter", .int p.n_iter)]

/-- HTTP method of an outbound request. -/
inductive HttpMethod where
  | post
  | get
deriving DecidableEq

/-- An outbound HTTP request as issued by `requests.post(url, json=payload, timeout=...)`. -/
structure HttpRequest where
  method : HttpMethod
  url : String
  body : Payload
  timeout : Int
deriving DecidableEq

/-- The parsed JSON body of a successful remote response:
`images` is `none` when the key is absent, and `infoSeed` models the
optional `info.seed` value. -/
structure SDResponse where
  images : Option (List String)
  infoSeed : Option Int
deriving DecidableEq

/-- Every outcome of the remote call and response handling inside the
`try` block: parsed 2xx response, connection failure, timeout, any
other `RequestException` (non-2xx status from `raise_for_status`,
malformed/non-JSON body), or any other exception. -/
inductive RemoteOutcome where
  | success : SDResponse → RemoteOutcome
  | connectionError : RemoteOutcome
  | timeout : RemoteOutcome
  | requestError : String → RemoteOutcome
  | otherError : String → RemoteOutcome
deriving DecidableEq

/-- Default `negative_prompt` of `generate_image` (line 48). -/
def generate_image_default_negative : String :=
  "blurry, bad quality, distorted, ugly, deformed, low resolution, pixelated"

/-- Default `negative_prompt` of `generate_image_advanced` (line 125). -/
def generate_image_advanced_default_negative : String :=
  "blurry, bad quality, distorted, ugly, deformed, low resolution"

/-- Lines 157-158: `max(64, (x // 64) * 64)`. -/
def normalize_dimension (x : Int) : Int :=
  max 64 ((x.fdiv 64) * 64)

/-- Line 159: `max(1, min(steps, 100))`. -/
def clamp_steps (s : Int) : Int :=
  max 1 (min s 100)

/-- Line 160: `max(1.0, min(cfg_scale, 30.0))`. -/
def clamp_cfg (c : ℚ) : ℚ :=
  max 1 (min c 30)

/-- The request `generate_image` constructs and posts (lines 77-102):
defaults from the valves, dimensions floored to multiples of 64 with no
minimum, seed `-1`, `batch_size` and `n_iter` `1`, POST to
`{STABLE_DIFFUSION_URL}/sdapi/v1/txt2img` with `timeout=600`. -/
def generate_image_request (valves : Valves) (prompt : String)
    (negative_prompt : Option String) : HttpRequest :=
  let np := negative_prompt.getD generate_image_default_negative
  let width := (valves.DEFAULT_WIDTH.fdiv 64) * 64
  let height := (valves.DEFAULT_HEIGHT.fdiv 64) * 64
  { method := .post
    url := valves.STABLE_DIFFUSION_URL ++ "/sdapi/v1/txt2img"
    timeout := 600
    body :=
      { prompt := prompt
        negative_prompt := np
        steps := valves.DEFAULT_STEPS
        cfg_scale := valves.DEFAULT_CFG_SCALE
        width := width
        height := height
        seed := -1
        sampler_name := valves.DEFAULT_SAMPLER
        batch_size := 1
        n_iter := 1 } }

/-- The list of outbound requests one call of `generate_image` makes:
exactly the single POST of line 102. -/
def generate_image_requests (valves : Valves) (prompt : String)
    (negative_prompt : Option String) : List HttpRequest :=
  [generate_image_request valves prompt negative_prompt]

/-- The success string of `generate_image` (line 109). -/
def generate_image_success_string (prompt img : String) : String :=
  "![Generated Image](data:image/png;base64," ++ img ++
    ")\n\n**Generated with prompt:** " ++ prompt

/-- The string `generate_image` returns for each outcome of the remote
call (lines 100-120). -/
def generate_image (prompt : String)
    (outcome : RemoteOutcome) : String :=
  match outcome with
  | .success resp =>
    match resp.images with
    | some (img :: _) => generate_image_success_string prompt img
    | some [] =>
      "Error: No image was generated. Please try again with a different prompt."
    | none =>
      "Error: No image was generated. Please try again with a different prompt."
  | .connectionError =>
    "Error: Could not connect to Stable Diffusion. The image generation service may be starting up - please wait a moment and try again."
  | .timeout =>
    "Error: Image generation timed out. The server may be busy. Please try again."
  | .requestError e => "Error generating image: " ++ e
  | .otherError e => "Unexpected error: " ++ e

/-- The request `generate_image_advanced` constructs and posts (lines
156-177): dimensions floored to multiples of 64 and clamped to a
minimum of 64, steps clamped to `[1,100]`, cfg scale clamped to
`[1.0,30.0]`, seed `-1`, POST to the same endpoint with `timeout=600`. -/
def generate_image_advanced_request (valves : Valves) (prompt : String)
    (negative_prompt : Option String) (width height steps : Int)
    (cfg_scale : ℚ) (sampler_name : String) : HttpRequest :=
  let np := negative_prompt.getD generate_image_advanced_default_negative
  { method := .post
    url := valves.STABLE_DIFFUSION_URL ++ "/sdapi/v1/txt2img"
    timeout := 600
    body :=
      { prompt := prompt
        negative_prompt := np
        steps := clamp_steps steps
        cfg_scale := clamp_cfg cfg_scale
        width := normalize_dimension width
        height := normalize_dimension height
        seed := -1
        sampler_name := sampler_name
        batch_size := 1
        n_iter := 1 } }

/-- The list of outbound requests one call of `generate_image_advanced`
makes: exactly the single POST of line 177. -/
def generate_image_advanced_requests (valves : Valves) (prompt : String)
    (negative_prompt : Option String) (width height steps : Int)
    (cfg_scale : ℚ) (sampler_name : String) : List HttpRequest :=
  [generate_image_advanced_request valves prompt negative_prompt
    width height steps cfg_scale sampler_name]

/-- The success string of `generate_image_advanced` (line 184), built
from the already-normalized parameters. -/
def generate_image_advanced_success_string (width height steps : Int)
    (cfg_scale : ℚ) (prompt img : String) : String :=
  "![Generated Image](data:image/png;base64," ++ img ++
    ")\n\n**Settings:** " ++ toString width ++ "x" ++ toString height ++
    ", " ++ toString steps ++ " steps, CFG " ++ toString cfg_scale ++
    "\n**Prompt:** " ++ prompt

/-- The string `generate_image_advanced` returns for each outcome of
the remote call (lines 175-195). -/
def generate_image_advanced (prompt : String) (width height steps : Int)
    (cfg_scale : ℚ) (outcome : RemoteOutcome) : String :=
  match outcome with
  | .success resp =>
    match resp.images with
    | some (img :: _) =>
      generate_image_advanced_success_string (normalize_dimension width)
        (normalize_dimension height) (clamp_steps steps)
        (clamp_cfg cfg_scale) prompt img
    | some [] => "Error: No image was generated."
    | none => "Error: No image was generated."
  | .connectionError =>
    "Error: Could not connect to Stable Diffusion. Please try again in a moment."
  | .timeout =>
    "Error: Image generation timed out. Try reducing steps or image size."
  | .requestError e => "Error generating image: " ++ e
  | .otherError e => "Unexpected error: " ++ e

/-- The result of `generate_image` is always one of its descriptive
strings: the markdown success string, the fixed no-image message, or
one of the error messages. -/
def generate_image_result_shapes (prompt r : String) : Prop :=
  (∃ img, r = generate_image_success_string prompt img) ∨
  r = "Error: No image was generated. Please try again with a different prompt." ∨
  r = "Error: Could not connect to Stable Diffusion. The image generation service may be starting up - please wait a moment and try again." ∨
  r = "Error: Image generation timed out. The server may be busy. Please try again." ∨
  (∃ e, r = "Error generating image: " ++ e) ∨
  (∃ e, r = "Unexpected error: " ++ e)

/-- The result of `generate_image_advanced` is always one of its
descriptive strings. -/
def generate_image_advanced_result_shapes (prompt : String)
    (width height steps : Int) (cfg_scale : ℚ) (r : String) : Prop :=
  (∃ img, r = generate_image_advanced_success_string
      (normalize_dimension width) (normalize_dimension height)
      (clamp_steps steps) (clamp_cfg cfg_scale) prompt img) ∨
  r = "Error: No image was generated." ∨
  r = "Error: Could not connect to Stable Diffusion. Please try again in a moment." ∨
  r = "Error: Image generation timed out. Try reducing steps or image size." ∨
  (∃ e, r = "Error generating image: " ++ e) ∨
  (∃ e, r = "Unexpected error: " ++ e)

theorem strPrefixAt_append (p rest : List Char) :
    strPrefixAt p (p ++ rest) = true := by
  induction p with
  | nil => rfl
  | cons a as ih => simp [strPrefixAt, ih]

theorem data_append (a b : String) : (a ++ b).data = a.data ++ b.data := rfl

theorem generate_image_ne_empty (prompt : String) (outcome : RemoteOutcome) :
    generate_image prompt outcome ≠ "" := by
  rcases outcome with resp | _ | _ | e | e
  · rcases resp with ⟨imgs, seedInfo⟩
    rcases imgs with _ | ⟨_ | ⟨img, rest⟩⟩ <;>
      simp [generate_image, generate_image_success_string, String.ext_iff,
        data_append]
  · simp [generate_image, String.ext_iff]
  · simp [generate_image, String.ext_iff]
  · simp [generate_image, String.ext_iff, data_append]
  · simp [generate_image, String.ext_iff, data_append]

theorem generate_image_advanced_ne_empty (prompt : String)
    (width height steps : Int) (cfg_scale : ℚ) (outcome : RemoteOutcome) :
    generate_image_advanced prompt width height steps cfg_scale outcome ≠ "" := by
  rcases outcome with resp | _ | _ | e | e
  · rcases resp with ⟨imgs, seedInfo⟩
    rcases imgs with _ | ⟨_ | ⟨img, rest⟩⟩ <;>
      simp [generate_image_advanced, generate_image_advanced_success_string,
        String.ext_iff, data_append]
  · simp [generate_image_advanced, String.ext_iff]
  · simp [generate_image_advanced, String.ext_iff]
  · simp [generate_image_advanced, String.ext_iff, data_append]
  · simp [generate_image_advanced, String.ext_iff, data_append]

/-- C1: for every input and every outcome of the remote call
(connection failure, timeout, non-2xx status, malformed response, or
any other exception inside the request/response handling — the
constructors of `RemoteOutcome`), `generate_image` and
`generate_image_advanced` return one of their descriptive non-empty
strings; as total functions into `String`, they never propagate a
fault. -/
theorem C1_always_descriptive_string (prompt : String)
    (width height steps : Int) (cfg_scale : ℚ) (o1 o2 : RemoteOutcome) :
    (generate_image_result_shapes prompt (generate_image prompt o1) ∧
      generate_image prompt o1 ≠ "") ∧
    (generate_image_advanced_result_shapes prompt width height steps cfg_scale
        (generate_image_advanced prompt width height steps cfg_scale o2) ∧
      generate_image_advanced prompt width height steps cfg_scale o2 ≠ "") := by
  refine ⟨⟨?_, generate_image_ne_empty prompt o1⟩,
    ?_, generate_image_advanced_ne_empty prompt width height steps cfg_scale o2⟩
  · rcases o1 with resp | _ | _ | e | e
    · rcases resp with ⟨imgs, seedInfo⟩
      rcases imgs with _ | ⟨_ | ⟨img, rest⟩⟩
      · exact Or.inr (Or.inl rfl)
      · exact Or.inr (Or.inl rfl)
      · exact Or.inl ⟨img, rfl⟩
    · exact Or.inr (Or.inr (Or.inl rfl))
    · exact Or.inr (Or.inr (Or.inr (Or.inl rfl)))
    · exact Or.inr (Or.inr (Or.inr (Or.inr (Or.inl ⟨e, rfl⟩))))
    · exact Or.inr (Or.inr (Or.inr (Or.inr (Or.inr ⟨e, rfl⟩))))
  · rcases o2 with resp | _ | _ | e | e
    · rcases resp with ⟨imgs, seedInfo⟩
      rcases imgs with _ | ⟨_ | ⟨img, rest⟩⟩
      · exact Or.inr (Or.inl rfl)
      · exact Or.inr (Or.inl rfl)
      · exact Or.inl ⟨img, rfl⟩
    · exact Or.inr (Or.inr (Or.inl rfl))
    · exact Or.inr (Or.inr (Or.inr (Or.inl rfl)))
    · exact Or.inr (Or.inr (Or.inr (Or.inr (Or.inl ⟨e, rfl⟩))))
    · exact Or.inr (Or.inr (Or.inr (Or.inr (Or.inr ⟨e, rfl⟩))))

/-- C2 counterexample: on response `{images := [QQ==], info.seed := 42}`
and prompt "a cat", the string `generate_image` returns does not
contain the seed `42` (the source never reads the `info` object), so
the claim as stated is false at this input. -/
theorem C2_counterexample :
    strContains
      (generate_image "a cat"
        (.success { images := some ["QQ=="], infoSeed := some 42 })) "42"
      = false := by
  decide

/-- C2 (amended): on a response with a non-empty `images` array the
string returned by `generate_image` is exactly the markdown success
string built from the first image and the literal prompt — it contains
the data URI and the prompt text, but the resolved seed from the
response's `info` object is never included, because the code ignores
`info`. -/
theorem C2_success_string (prompt img : String) (rest : List String)
    (seedInfo : Option Int) :
    generate_image prompt
        (.success { images := some (img :: rest), infoSeed := seedInfo })
      = generate_image_success_string prompt img ∧
    strContains
        (generate_image "a cat"
          (.success { images := some ["QQ=="], infoSeed := some 42 }))
        "data:image/png;base64,QQ==" = true ∧
    strContains
        (generate_image "a cat"
          (.success { images := some ["QQ=="], infoSeed := some 42 }))
        "a cat" = true := by
  exact ⟨rfl, by decide, by decide⟩

/-- C3: on a response that parses as JSON but whose `images` array is
empty or missing, each operation returns its fixed "no image was
generated" message as an ordinary string result. -/
theorem C3_no_image_message (prompt : String) (width height steps : Int)
    (cfg_scale : ℚ) (i1 i2 i3 i4 : Option Int) :
    generate_image prompt (.success { images := some [], infoSeed := i1 })
      = "Error: No image was generated. Please try again with a different prompt." ∧
    generate_image prompt (.success { images := none, infoSeed := i2 })
      = "Error: No image was generated. Please try again with a different prompt." ∧
    generate_image_advanced prompt width height steps cfg_scale
        (.success { images := some [], infoSeed := i3 })
      = "Error: No image was generated." ∧
    generate_image_advanced prompt width height steps cfg_scale
        (.success { images := none, infoSeed := i4 })
      = "Error: No image was generated." := by
  exact ⟨rfl, rfl, rfl, rfl⟩

theorem normalize_dimension_dvd (x : Int) : 64 ∣ normalize_dimension x := by
  unfold normalize_dimension
  rcases le_total ((x.fdiv 64) * 64) 64 with h | h
  · rw [max_eq_left h]
  · rw [max_eq_right h]
    exact dvd_mul_left 64 (x.fdiv 64)

theorem normalize_dimension_le (x : Int) : 64 ≤ normalize_dimension x :=
  le_max_left 64 _

/-- C4: for every integer width and height, the width and height placed
in the outgoing request of `generate_image_advanced` are multiples of
64 and at least 64; input 500 resolves to 448. -/
theorem C4_dimensions_normalized (valves : Valves) (prompt : String)
    (negative_prompt : Option String) (width height steps : Int)
    (cfg_scale : ℚ) (sampler_name : String) :
    (64 ∣ (generate_image_advanced_request valves prompt negative_prompt
        width height steps cfg_scale sampler_name).body.width) ∧
    64 ≤ (generate_image_advanced_request valves prompt negative_prompt
        width height steps cfg_scale sampler_name).body.width ∧
    (64 ∣ (generate_image_advanced_request valves prompt negative_prompt
        width height steps cfg_scale sampler_name).body.height) ∧
    64 ≤ (generate_image_advanced_request valves prompt negative_prompt
        width height steps cfg_scale sampler_name).body.height ∧
    normalize_dimension 500 = 448 := by
  exact ⟨normalize_dimension_dvd width, normalize_dimension_le width,
    normalize_dimension_dvd height, normalize_dimension_le height, by decide⟩

/-- C5: the steps value placed in the outgoing request of
`generate_image_advanced` is clamped into `[1,100]` (500 resolves to
100, 0 resolves to 1) and the cfg scale into `[1.0,30.0]` (50.0
resolves to 30.0, 0.5 resolves to 1.0); values already inside the
ranges pass through unchanged. -/
theorem C5_clamps (valves : Valves) (prompt : String)
    (negative_prompt : Option String) (sampler_name : String)
    (width height steps : Int) (cfg_scale : ℚ) :
    (generate_image_advanced_request valves prompt negative_prompt
        width height steps cfg_scale sampler_name).body.steps
      = clamp_steps steps ∧
    (generate_image_advanced_request valves prompt negative_prompt
        width height steps cfg_scale sampler_name).body.cfg_scale
      = clamp_cfg cfg_scale ∧
    1 ≤ clamp_steps steps ∧ clamp_steps steps ≤ 100 ∧
    1 ≤ clamp_cfg cfg_scale ∧ clamp_cfg cfg_scale ≤ 30 ∧
    clamp_steps 500 = 100 ∧ clamp_steps 0 = 1 ∧
    clamp_cfg 50 = 30 ∧ clamp_cfg (1/2) = 1 ∧
    (1 ≤ steps → steps ≤ 100 → clamp_steps steps = steps) ∧
    (1 ≤ cfg_scale → cfg_scale ≤ 30 → clamp_cfg cfg_scale = cfg_scale) := by
  refine ⟨rfl, rfl, le_max_left 1 _, ?_, le_max_left 1 _, ?_, ?_, ?_, ?_, ?_, ?_, ?_⟩
  · exact max_le (by norm_num) (min_le_right steps 100)
  · exact max_le (by norm_num) (min_le_right cfg_scale 30)
  · decide
  · decide
  · norm_num [clamp_cfg, min_def, max_def]
  · norm_num [clamp_cfg, min_def, max_def]
  · intro h1 h2
    unfold clamp_steps
    omega
  · intro h1 h2
    rw [clamp_cfg, min_eq_left h2, max_eq_right h1]

/-- Witness for C5: the in-range pass-through implications at the
concrete in-range inputs 20 and 7. -/
theorem C5_clamps_witness : clamp_steps 20 = 20 ∧ clamp_cfg 7 = 7 := by
  obtain ⟨-, -, -, -, -, -, -, -, -, -, hs, hc⟩ :=
    C5_clamps defaultValves "a cat" none "Euler a" 512 512 20 7
  exact ⟨hs (by norm_num) (by norm_num), hc (by norm_num) (by norm_num)⟩

/-- C6: each invocation of either operation issues exactly one POST to
`{STABLE_DIFFUSION_URL}/sdapi/v1/txt2img` with timeout 600 (≥ 300), and
the JSON body holds exactly the fields `prompt, negative_prompt, steps,
cfg_scale, width, height, seed, sampler_name, batch_size=1, n_iter=1`
in that order. -/
theorem C6_request_shape (valves : Valves) (prompt : String)
    (negative_prompt : Option String) (width height steps : Int)
    (cfg_scale : ℚ) (sampler_name : String) :
    (generate_image_requests valves prompt negative_prompt).length = 1 ∧
    (generate_image_request valves prompt negative_prompt).method = .post ∧
    (generate_image_request valves prompt negative_prompt).url
      = valves.STABLE_DIFFUSION_URL ++ "/sdapi/v1/txt2img" ∧
    (generate_image_request valves prompt negative_prompt).timeout = 600 ∧
    300 ≤ (generate_image_request valves prompt negative_prompt).timeout ∧
    (generate_image_request valves prompt
        negative_prompt).body.toJsonFields.map Prod.fst
      = ["prompt", "negative_prompt", "steps", "cfg_scale", "width",
         "height", "seed", "sampler_name", "batch_size", "n_iter"] ∧
    (generate_image_request valves prompt negative_prompt).body.batch_size = 1 ∧
    (generate_image_request valves prompt negative_prompt).body.n_iter = 1 ∧
    (generate_image_advanced_requests valves prompt negative_prompt
        width height steps cfg_scale sampler_name).length = 1 ∧
    (generate_image_advanced_request valves prompt negative_prompt
        width height steps cfg_scale sampler_name).method = .post ∧
    (generate_image_advanced_request valves prompt negative_prompt
        width height steps cfg_scale sampler_name).url
      = valves.STABLE_DIFFUSION_URL ++ "/sdapi/v1/txt2img" ∧
    (generate_image_advanced_request valves prompt negative_prompt
        width height steps cfg_scale sampler_name).timeout = 600 ∧
    300 ≤ (generate_image_advanced_request valves prompt negative_prompt
        width height steps cfg_scale sampler_name).timeout ∧
    (generate_image_advanced_request valves prompt negative_prompt
        width height steps cfg_scale sampler_name).body.toJsonFields.map Prod.fst
      = ["prompt", "negative_prompt", "steps", "cfg_scale", "width",
         "height", "seed", "sampler_name", "batch_size", "n_iter"] ∧
    (generate_image_advanced_request valves prompt negative_prompt
        width height steps cfg_scale sampler_name).body.batch_size = 1 ∧
    (generate_image_advanced_request valves prompt negative_prompt
        width height steps cfg_scale sampler_name).body.n_iter = 1 := by
  refine ⟨rfl, rfl, rfl, rfl, ?_, rfl, rfl, rfl, rfl, rfl, rfl, rfl, ?_, rfl,
    rfl, rfl⟩
  · show (300 : Int) ≤ 600
    norm_num
  · show (300 : Int) ≤ 600
    norm_num

/-- C7 counterexample: the connection-failure message of
`generate_image_advanced` never mentions starting up, so the claim as
stated is false for the advanced operation. -/
theorem C7_counterexample :
    strContains (generate_image_advanced "a cat" 512 512 20 7
      .connectionError) "starting up" = false := by
  decide

/-- C7 (amended): on a connection failure `generate_image`'s message
suggests the service may be starting up while
`generate_image_advanced`'s only asks to try again in a moment; on a
timeout `generate_image` suggests retrying and
`generate_image_advanced` suggests reducing steps or image size. -/
theorem C7_error_messages (p1 p2 : String) (width height steps : Int)
    (cfg_scale : ℚ) :
    strContains (generate_image p1 .connectionError)
      "may be starting up" = true ∧
    strContains (generate_image p1 .timeout) "Please try again" = true ∧
    generate_image_advanced p2 width height steps cfg_scale .connectionError
      = "Error: Could not connect to Stable Diffusion. Please try again in a moment." ∧
    strContains (generate_image_advanced p2 width height steps cfg_scale
      .timeout) "reducing steps or image size" = true := by
  exact ⟨rfl, rfl, rfl, rfl⟩

/-- C8 counterexample: an explicitly supplied empty negative prompt is
passed through as the empty string — the fixed quality-exclusion phrase
is not substituted — so the claim as stated is false at this input. -/
theorem C8_counterexample :
    (generate_image_request defaultValves "a cat"
      (some "")).body.negative_prompt = "" ∧
    (generate_image_request defaultValves "a cat"
      (some "")).body.negative_prompt ≠ generate_image_default_negative ∧
    (generate_image_advanced_request defaultValves "a cat" (some "")
      512 512 20 7 "Euler a").body.negative_prompt
      ≠ generate_image_advanced_default_negative := by
  exact ⟨rfl, by decide, by decide⟩

/-- C8 (amended): only when the caller omits the negative prompt do the
operations use their fixed quality-exclusion phrases, each beginning
"blurry, bad quality, distorted, ugly, deformed"; any explicitly
supplied value — the empty string included — is sent unchanged. -/
theorem C8_default_negative (valves : Valves) (prompt np sampler_name : String)
    (width height steps : Int) (cfg_scale : ℚ) :
    (generate_image_request valves prompt none).body.negative_prompt
      = generate_image_default_negative ∧
    (generate_image_advanced_request valves prompt none width height steps
        cfg_scale sampler_name).body.negative_prompt
      = generate_image_advanced_default_negative ∧
    strPrefixAt "blurry, bad quality, distorted, ugly, deformed".data
      generate_image_default_negative.data = true ∧
    strPrefixAt "blurry, bad quality, distorted, ugly, deformed".data
      generate_image_advanced_default_negative.data = true ∧
    (generate_image_request valves prompt (some np)).body.negative_prompt
      = np ∧
    (generate_image_advanced_request valves prompt (some np) width height
        steps cfg_scale sampler_name).body.negative_prompt = np := by
  exact ⟨rfl, rfl, by decide, by decide, rfl, rfl⟩

/-- C9: the parameter normalization of `generate_image_advanced` is
idempotent: re-applying the dimension floor-with-minimum, the steps
clamp, and the cfg-scale clamp to already-normalized values leaves them
unchanged. -/
theorem C9_normalization_idempotent (width steps : Int) (cfg_scale : ℚ) :
    normalize_dimension (normalize_dimension width)
      = normalize_dimension width ∧
    clamp_steps (clamp_steps steps) = clamp_steps steps ∧
    clamp_cfg (clamp_cfg cfg_scale) = clamp_cfg cfg_scale := by
  refine ⟨?_, ?_, ?_⟩
  · have hdvd := normalize_dimension_dvd width
    have hle := normalize_dimension_le width
    unfold normalize_dimension at hdvd hle ⊢
    rw [Int.fdiv_eq_ediv _ (by norm_num : (0:ℤ) ≤ 64),
      Int.ediv_mul_cancel hdvd]
    exact max_eq_right hle
  · have h1 : (1:ℤ) ≤ clamp_steps steps := le_max_left 1 _
    have h2 : clamp_steps steps ≤ 100 :=
      max_le (by norm_num) (min_le_right steps 100)
    unfold clamp_steps at h1 h2 ⊢
    rw [min_eq_left h2, max_eq_right h1]
  · have h1 : (1:ℚ) ≤ clamp_cfg cfg_scale := le_max_left 1 _
    have h2 : clamp_cfg cfg_scale ≤ 30 :=
      max_le (by norm_num) (min_le_right cfg_scale 30)
    unfold clamp_cfg at h1 h2 ⊢
    rw [min_eq_left h2, max_eq_right h1]

/-- C10: `generate_image` only floors the configured default dimensions
to multiples of 64, without the minimum-64 clamp of the advanced
variant: whenever `DEFAULT_WIDTH` (resp. `DEFAULT_HEIGHT`) is below 64,
the width (resp. height) placed in the outgoing request is 0 or
negative. -/
theorem C10_no_minimum_clamp (valves : Valves) (prompt : String)
    (negative_prompt : Option String) :
    (valves.DEFAULT_WIDTH < 64 →
      (generate_image_request valves prompt negative_prompt).body.width ≤ 0) ∧
    (valves.DEFAULT_HEIGHT < 64 →
      (generate_image_request valves prompt negative_prompt).body.height ≤ 0) := by
  have key : ∀ x : ℤ, x < 64 → (x.fdiv 64) * 64 ≤ 0 := by
    intro x hx
    rw [Int.fdiv_eq_ediv _ (by norm_num : (0:ℤ) ≤ 64)]
    omega
  exact ⟨fun hw => key _ hw, fun hh => key _ hh⟩

/-- Witness for C10, exercising each dimension independently: with
`DEFAULT_WIDTH = 32` (height left at 512) the request width is at most
0, and with `DEFAULT_HEIGHT = 10` (width left at 512) the request
height is at most 0. -/
theorem C10_no_minimum_clamp_witness :
    (32 : ℤ) < 64 ∧ (10 : ℤ) < 64 ∧
    (generate_image_request { defaultValves with DEFAULT_WIDTH := 32 }
      "a cat" none).body.width ≤ 0 ∧
    (generate_image_request { defaultValves with DEFAULT_HEIGHT := 10 }
      "a cat" none).body.height ≤ 0 := by
  refine ⟨by norm_num, by norm_num, ?_, ?_⟩
  · exact (C10_no_minimum_clamp { defaultValves with DEFAULT_WIDTH := 32 }
      "a cat" none).1 (by norm_num)
  · exact (C10_no_minimum_clamp { defaultValves with DEFAULT_HEIGHT := 10 }
      "a cat" none).2 (by norm_num)
